import Mathlib

/-!
Shallow embedding of the `bevy_eventwork` networking core
(src/tcp.rs, src/server.rs, src/client.rs) and proofs about it.

Conventions of the embedding:
* Rust `String`s that travel over the wire are modelled as their UTF-8
  byte sequences, `List Nat` (each entry one byte value).
* Machine integers are `Nat`, with `% 2 ^ 64` made explicit where the
  Rust code works with `u64`/`usize` (64-bit platform).
* The TCP read half is modelled as the list of bytes the peer sent:
  a `read` into an `n`-byte slice returns `min n remaining` bytes and
  returns `0` exactly at end of stream; `read_exact` succeeds exactly
  when enough bytes remain.
* Async channels are modelled by their queued contents plus a `closed`
  flag (`closed = true` models "the consuming task has exited and
  dropped the receiver, so `try_send` fails").
* `DashMap`s are modelled as association lists with the source's
  insertion/lookup/clear behaviour; task join handles are dropped from
  the state since no claim observes a task handle beyond its
  `Option`-ness (`server_handle`, `connection_task`).
-/

namespace Eventwork

/-- `u64::to_le_bytes` applied to a length value (`encoded.len() as u64`
in `send_loop`): the eight little-endian bytes of `n % 2 ^ 64`. -/
def u64ToLeBytes (n : Nat) : List Nat :=
  [n % 256, n / 256 % 256, n / 256 ^ 2 % 256, n / 256 ^ 3 % 256,
   n / 256 ^ 4 % 256, n / 256 ^ 5 % 256, n / 256 ^ 6 % 256, n / 256 ^ 7 % 256]

/-- `u64::from_le_bytes` on the eight header bytes read by `recv_loop`
(then `as usize`, lossless on a 64-bit platform). Any list that is not
exactly eight bytes maps to `0`; `recv_loop` only ever applies it to
eight-byte slices. -/
def u64FromLeBytes : List Nat → Nat
  | [b0, b1, b2, b3, b4, b5, b6, b7] =>
      b0 + 256 * (b1 + 256 * (b2 + 256 * (b3 + 256 * (b4 + 256 *
        (b5 + 256 * (b6 + 256 * b7))))))
  | _ => 0

/-- The wire packet `NetworkPacket { kind: String, data: String }`:
`kind` and `data` are the UTF-8 bytes of the two strings. -/
structure NetworkPacket where
  kind : List Nat
  data : List Nat
  deriving DecidableEq, Repr

/-- Lowercase hex digit byte, as `serde_json` emits in `\u00XX` escapes. -/
def hexDigit (d : Nat) : Nat :=
  if d < 10 then 0x30 + d else 0x61 + (d - 10)

/-- Value of one hex digit byte accepted back by the JSON string parser
(lowercase suffices: it is all the serializer emits). -/
def hexVal (b : Nat) : Option Nat :=
  if 0x30 ≤ b ∧ b ≤ 0x39 then some (b - 0x30)
  else if 0x61 ≤ b ∧ b ≤ 0x66 then some (b - 0x61 + 10)
  else none

/-- `serde_json`'s escaping of one byte inside a JSON string literal:
`"` and `\` get a backslash escape, the control bytes BS, TAB, LF, FF,
CR get their short escapes, every other byte below 0x20 becomes
`\u00XX` (lowercase hex), and all remaining bytes pass through. -/
def escapeByte (b : Nat) : List Nat :=
  if b = 0x22 then [0x5C, 0x22]
  else if b = 0x5C then [0x5C, 0x5C]
  else if b = 0x08 then [0x5C, 0x62]
  else if b = 0x09 then [0x5C, 0x74]
  else if b = 0x0A then [0x5C, 0x6E]
  else if b = 0x0C then [0x5C, 0x66]
  else if b = 0x0D then [0x5C, 0x72]
  else if b < 0x20 then [0x5C, 0x75, 0x30, 0x30, hexDigit (b / 16), hexDigit (b % 16)]
  else [b]

/-- Escape a whole string body. -/
def escapeBytes (s : List Nat) : List Nat := s.flatMap escapeByte

/-- JSON string-literal body parser: consumes bytes up to the closing
unescaped `"` and returns the unescaped content together with the rest
of the input. Models the part of `serde_json::from_slice`'s string
parsing exercised by serializer output: short escapes, `\u00XX` for
control characters, everything else taken verbatim. -/
def parseJsonString : List Nat → Option (List Nat × List Nat)
  | [] => none
  | b :: rest =>
    if b = 0x22 then some ([], rest)
    else if b = 0x5C then
      match rest with
      | [] => none
      | c :: rest2 =>
        if c = 0x22 then (parseJsonString rest2).map (fun p => (0x22 :: p.1, p.2))
        else if c = 0x5C then (parseJsonString rest2).map (fun p => (0x5C :: p.1, p.2))
        else if c = 0x62 then (parseJsonString rest2).map (fun p => (0x08 :: p.1, p.2))
        else if c = 0x74 then (parseJsonString rest2).map (fun p => (0x09 :: p.1, p.2))
        else if c = 0x6E then (parseJsonString rest2).map (fun p => (0x0A :: p.1, p.2))
        else if c = 0x66 then (parseJsonString rest2).map (fun p => (0x0C :: p.1, p.2))
        else if c = 0x72 then (parseJsonString rest2).map (fun p => (0x0D :: p.1, p.2))
        else if c = 0x75 then
          match rest2 with
          | h1 :: h2 :: h3 :: h4 :: rest3 =>
            match hexVal h1, hexVal h2, hexVal h3, hexVal h4 with
            | some v1, some v2, some v3, some v4 =>
              let v := ((v1 * 16 + v2) * 16 + v3) * 16 + v4
              if v < 0x20 then (parseJsonString rest3).map (fun p => (v :: p.1, p.2))
              else none
            | _, _, _, _ => none
          | _ => none
        else none
    else (parseJsonString rest).map (fun p => (b :: p.1, p.2))
termination_by l => l.length

/-- Consume an expected literal byte sequence from the front of the
input, returning the remainder, or `none` on a mismatch. -/
def dropLit : List Nat → List Nat → Option (List Nat)
  | [], bs => some bs
  | _ :: _, [] => none
  | l :: lt, b :: bt => if b = l then dropLit lt bt else none

/-- `serde_json::to_string(&NetworkPacket { kind, data })`: the exact
bytes serde_json emits for a two-string-field struct, fields in
declaration order: `{"kind":"<esc kind>","data":"<esc data>"}`
(0x7B/0x7D are the braces, 0x22 the quote, 0x3A the colon, 0x2C the
comma; the `kind`/`data` field names are spelled out byte by byte). -/
def jsonEncodePacket (p : NetworkPacket) : List Nat :=
  [0x7B, 0x22, 0x6B, 0x69, 0x6E, 0x64, 0x22, 0x3A, 0x22]
    ++ escapeBytes p.kind
    ++ [0x22, 0x2C, 0x22, 0x64, 0x61, 0x74, 0x61, 0x22, 0x3A, 0x22]
    ++ escapeBytes p.data
    ++ [0x22, 0x7D]

/-- `serde_json::from_slice::<NetworkPacket>`, modelled on the exact
grammar `jsonEncodePacket` emits (the serializer never produces
whitespace or reordered fields, so the round-trip claims only exercise
this fragment of serde_json's parser). -/
def jsonDecodePacket (bs : List Nat) : Option NetworkPacket :=
  match dropLit [0x7B, 0x22, 0x6B, 0x69, 0x6E, 0x64, 0x22, 0x3A, 0x22] bs with
  | none => none
  | some rest =>
    match parseJsonString rest with
    | none => none
    | some (kind, rest1) =>
      match dropLit [0x2C, 0x22, 0x64, 0x61, 0x74, 0x61, 0x22, 0x3A, 0x22] rest1 with
      | none => none
      | some rest2 =>
        match parseJsonString rest2 with
        | none => none
        | some (data, tail) =>
          if tail = [0x7D] then some ⟨kind, data⟩ else none

/-- Exit reason of the provider `recv_loop` (`TcpServerProvider::recv_loop`
and `TcpClientProvider::recv_loop` in src/tcp.rs are identical here).
`panicked` models the out-of-bounds slice `buffer[..8]` when the buffer
`vec![0; max_packet_length]` is shorter than 8 bytes; every other
constructor is one of the `break`s of the loop. -/
inductive RecvExit where
  /-- `buffer[..8]` sliced out of a buffer shorter than 8 bytes: panic. -/
  | panicked : RecvExit
  /-- header read returned `Ok(0)`: clean end of stream, only `info!` logged. -/
  | cleanEof : RecvExit
  /-- header read returned `Ok(n)`, `0 < n < 8`: `error!` then break. -/
  | malformedHeader (n : Nat) : RecvExit
  /-- declared length exceeds `max_packet_length`: `error!` then break. -/
  | tooLarge (declared : Nat) : RecvExit
  /-- `read_exact` of the body failed (stream ended early): break. -/
  | bodyReadErr (declared : Nat) : RecvExit
  /-- `serde_json::from_slice` failed: break. -/
  | decodeErr : RecvExit
  deriving DecidableEq, Repr

/-- The provider `recv_loop` of src/tcp.rs over a byte stream `s` (all
the bytes the peer will ever send). Returns the packets forwarded to
the `messages` channel, in order, together with the exit reason.

Per the source: the loop allocates `vec![0; max_packet_length]` once and
each iteration (1) reads into `buffer[..8]` — a panic if
`max_packet_length < 8`, `Ok(0)` at end of stream, `Ok(8)` when eight
bytes are available, otherwise a short read treated as a malformed
header; (2) interprets the eight bytes as a little-endian `u64` length;
(3) breaks if that length exceeds `max_packet_length`, without touching
the body; (4) `read_exact`s the body and `serde_json::from_slice`s it,
breaking on failure; (5) sends the packet on and repeats. The
destination channel is held open by the dispatch task, so the
send-failure break is not reachable in this model. -/
def recvLoop (maxLen : Nat) (s : List Nat) : List NetworkPacket × RecvExit :=
  if maxLen < 8 then ([], .panicked)
  else
    if s.length = 0 then ([], .cleanEof)
    else if _h8 : 8 ≤ s.length then
      let length := u64FromLeBytes (s.take 8)
      if length > maxLen then ([], .tooLarge length)
      else
        let rest := s.drop 8
        if rest.length < length then ([], .bodyReadErr length)
        else
          match jsonDecodePacket (rest.take length) with
          | none => ([], .decodeErr)
          | some p =>
            let r := recvLoop maxLen (rest.drop length)
            (p :: r.1, r.2)
    else ([], .malformedHeader s.length)
termination_by s.length
decreasing_by
  simp only [List.length_drop]
  omega

/-- One frame as written by `send_loop` in src/tcp.rs: the serialized
body's byte length as eight little-endian bytes
(`(encoded.len() as u64).to_le_bytes()`), then the body bytes. -/
def encodeFrame (p : NetworkPacket) : List Nat :=
  u64ToLeBytes (jsonEncodePacket p).length ++ jsonEncodePacket p

/-- The provider `send_loop` of src/tcp.rs, viewed as the byte stream it
writes for a list of queued packets (serialization of this packet type
never fails, and the write-error breaks are I/O failures outside the
byte-level model). -/
def sendLoop (ps : List NetworkPacket) : List Nat :=
  ps.flatMap encodeFrame

/-- `ConnectionId { uuid: Uuid }`; the 128-bit random UUID is an opaque
number here. -/
structure ConnectionId where
  uuid : Nat
  deriving DecidableEq, Repr

/-- `NetworkError` of src/error.rs as referenced by the three source
files; the `std::io::Error` payloads of the I/O variants are opaque. -/
inductive NetworkError where
  | NotConnected : NetworkError
  | ConnectionNotFound (id : ConnectionId) : NetworkError
  | ChannelClosed (id : ConnectionId) : NetworkError
  | ListenErr : NetworkError
  | AcceptErr : NetworkError
  | ConnectionErr : NetworkError
  deriving DecidableEq, Repr

/-- `ClientNetworkEvent`: lifecycle notifications on the client. -/
inductive ClientNetworkEvent where
  | Connected : ClientNetworkEvent
  | Disconnected : ClientNetworkEvent
  | Error (e : NetworkError) : ClientNetworkEvent
  deriving DecidableEq, Repr

/-- `ServerNetworkEvent`: lifecycle notifications on the server. -/
inductive ServerNetworkEvent where
  | Connected (id : ConnectionId) : ServerNetworkEvent
  | Disconnected (id : ConnectionId) : ServerNetworkEvent
  | Error (e : NetworkError) : ServerNetworkEvent
  deriving DecidableEq, Repr

/-- An unbounded `async_channel` holding packets, seen from the sending
side: its queued contents plus whether the receiving end has been
dropped (the paired task exited), in which case `try_send` fails. -/
structure Channel where
  queue : List NetworkPacket
  closed : Bool
  deriving DecidableEq, Repr

/-- `Sender::try_send` on an unbounded channel: fails exactly when the
channel is closed, otherwise enqueues the packet. -/
def Channel.trySend (c : Channel) (p : NetworkPacket) : Option Channel :=
  if c.closed then none else some { c with queue := c.queue ++ [p] }

/-- One established `Connection`: its outgoing packet channel
`send_message`. The three task join handles the Rust struct also holds
are not observable state in any claim and are omitted. -/
structure Connection where
  send_message : Channel
  deriving DecidableEq, Repr

/-- Association-list lookup, modelling `DashMap::get`. -/
def alistLookup {K V : Type} [DecidableEq K] : List (K × V) → K → Option V
  | [], _ => none
  | (k, v) :: t, key => if k = key then some v else alistLookup t key

/-- Replace the value stored under an existing key, modelling mutation
through `DashMap::get_mut` (keys are unique in every state the code
builds, since insertion asserts absence first). -/
def alistSet {K V : Type} [DecidableEq K] (m : List (K × V)) (key : K) (v : V) :
    List (K × V) :=
  m.map fun e => if e.1 = key then (e.1, v) else e

/-- The `NetworkServer` resource of src/server.rs. `recv_message_map`
maps a registered message kind to its queue of
`(ConnectionId, String)` payloads; `new_connections` /
`disconnected_connections` are the queued contents of the two internal
channels; `server_handle` is `Some` while an accept loop is running.
The `error_channel` plays no part in any claim and is omitted; sockets
carry no data in this model, so `new_connections` holds units. -/
structure NetworkServer where
  recv_message_map : List (List Nat × List (ConnectionId × List Nat))
  established_connections : List (ConnectionId × Connection)
  new_connections : List Unit
  disconnected_connections : List ConnectionId
  server_handle : Option Unit
  deriving DecidableEq, Repr

/-- `NetworkServer::send_message` (src/server.rs lines 118-142): look
the client up in `established_connections` (else
`ConnectionNotFound`), then `try_send` the packet on its outgoing
channel (else `ChannelClosed`). The packet argument stands for the
`NetworkPacket` the code builds from the typed message. -/
def NetworkServer.send_message (s : NetworkServer) (client_id : ConnectionId)
    (p : NetworkPacket) : Except NetworkError NetworkServer :=
  match alistLookup s.established_connections client_id with
  | none => .error (.ConnectionNotFound client_id)
  | some conn =>
    match conn.send_message.trySend p with
    | none => .error (.ChannelClosed client_id)
    | some ch =>
        .ok { s with established_connections :=
                alistSet s.established_connections client_id { send_message := ch } }

/-- One step of `NetworkServer::broadcast`'s loop body: `try_send` the
packet to this connection; a failure is only logged (`warn!`) and the
connection is left as it was. -/
def broadcastStep (p : NetworkPacket) (e : ConnectionId × Connection) :
    ConnectionId × Connection :=
  match e.2.send_message.trySend p with
  | some ch => (e.1, { send_message := ch })
  | none => e

/-- `NetworkServer::broadcast` (src/server.rs lines 145-160): try to
enqueue one copy of the packet to every established connection; no
error is ever returned to the caller (the function returns unit in the
source — here, just the updated state). -/
def NetworkServer.broadcast (s : NetworkServer) (p : NetworkPacket) : NetworkServer :=
  { s with established_connections := s.established_connections.map (broadcastStep p) }

/-- `NetworkServer::stop` (src/server.rs lines 166-177): a no-op unless
a server handle exists. Otherwise it aborts the accept loop, evaluates
`let _ = self.disconnected_connections.sender.send(*conn.key());` for
every established connection — `async_channel::Sender::send` returns a
future and that future is dropped without being awaited, so nothing is
enqueued on the disconnected-connections channel — then clears
`established_connections`, clears `recv_message_map` (removing every
entry, registrations included), and drains `new_connections`. -/
def NetworkServer.stop (s : NetworkServer) : NetworkServer :=
  match s.server_handle with
  | none => s
  | some _ =>
      { s with
          server_handle := none,
          established_connections := [],
          recv_message_map := [],
          new_connections := [] }

/-- The dispatch task body of src/server.rs (lines 227-236,
`map_receive_task`) for one decoded packet: look the packet's `kind` up
in `recv_message_map` and append `(conn_id, data)` to that kind's
queue; an unregistered kind is logged and the packet dropped. -/
def dispatchPacketServer (conn_id : ConnectionId)
    (m : List (List Nat × List (ConnectionId × List Nat))) (p : NetworkPacket) :
    List (List Nat × List (ConnectionId × List Nat)) :=
  match alistLookup m p.kind with
  | some q => alistSet m p.kind (q ++ [(conn_id, p.data)])
  | none => m

/-- The dispatch task run over a list of decoded packets in arrival
order. -/
def dispatchPacketsServer (conn_id : ConnectionId)
    (m : List (List Nat × List (ConnectionId × List Nat)))
    (ps : List NetworkPacket) : List (List Nat × List (ConnectionId × List Nat)) :=
  ps.foldl (dispatchPacketServer conn_id) m

/-- The second drain of `handle_new_incoming_connections`
(src/server.rs lines 249-254): for every id currently queued on the
disconnected-connections channel, remove it from
`established_connections` and emit one `Disconnected` event; the
channel is left empty. -/
def handle_disconnections (s : NetworkServer) :
    List ServerNetworkEvent × NetworkServer :=
  (s.disconnected_connections.map ServerNetworkEvent.Disconnected,
   { s with
       established_connections :=
         s.disconnected_connections.foldl
           (fun l cid => l.filter fun e => decide (e.1 ≠ cid))
           s.established_connections,
       disconnected_connections := [] })

/-- `AppNetworkServerMessage::listen_for_server_message`
(src/server.rs lines 272-287): `assert!` that the kind is not yet in
`recv_message_map` — `none` models the fatal assertion failure — then
insert an empty queue for it. -/
def listen_for_server_message (kind : List Nat) (s : NetworkServer) :
    Option NetworkServer :=
  if (alistLookup s.recv_message_map kind).isSome then none
  else some { s with recv_message_map := s.recv_message_map ++ [(kind, [])] }

/-- The `register_server_message` system (src/server.rs lines 290-306):
if the kind is registered, `drain(..)` its whole queue, keep only the
payloads whose application-level deserialization (`des`) succeeds —
each failure is skipped individually by `filter_map` — and emit them
paired with their origin connection; the kind's queue is left empty.
An unregistered kind yields nothing and changes nothing. -/
def register_server_message {α : Type} (des : List Nat → Option α)
    (kind : List Nat) (s : NetworkServer) :
    List (ConnectionId × α) × NetworkServer :=
  match alistLookup s.recv_message_map kind with
  | none => ([], s)
  | some q =>
      (q.filterMap fun e => (des e.2).map fun inner => (e.1, inner),
       { s with recv_message_map := alistSet s.recv_message_map kind [] })

/-- The sentinel `ConnectionId::server()` a client uses for its single
peer. Modelled from the spec: `ConnectionId::server()` lives in the
crate root (not under src/), and the spec says "a client uses a fixed
sentinel identifier representing the server". -/
def ConnectionId.server : ConnectionId := ⟨0⟩

/-- The `NetworkClient` resource of src/client.rs. `recv_message_map`
maps a registered kind to its queue of raw payload strings;
`network_events` is the queued contents of the lifecycle-event channel;
`connection_task` is `Some` while a connect attempt has been spawned. -/
structure NetworkClient where
  server_connection : Option Connection
  recv_message_map : List (List Nat × List (List Nat))
  network_events : List ClientNetworkEvent
  connection_task : Option Unit
  deriving DecidableEq, Repr

/-- `NetworkClient::disconnect` (src/client.rs lines 118-127): a no-op
when not connected. Otherwise it takes and stops the connection (task
aborts) and evaluates
`let _ = self.network_events.sender.send(ClientNetworkEvent::Disconnected);`
— again a send future dropped without being awaited, so no
`Disconnected` event is enqueued. -/
def NetworkClient.disconnect (c : NetworkClient) : NetworkClient :=
  match c.server_connection with
  | none => c
  | some _ => { c with server_connection := none }

/-- `NetworkClient::send_message` (src/client.rs lines 131-152): with no
connection, `NotConnected`; otherwise `try_send` on the outgoing
channel, and on failure the code logs "Server disconnected" and again
returns `NotConnected` (not `ChannelClosed`). -/
def NetworkClient.send_message (c : NetworkClient) (p : NetworkPacket) :
    Except NetworkError NetworkClient :=
  match c.server_connection with
  | none => .error .NotConnected
  | some conn =>
    match conn.send_message.trySend p with
    | none => .error .NotConnected
    | some ch => .ok { c with server_connection := some { send_message := ch } }

/-- `NetworkClient::is_connected`. -/
def NetworkClient.is_connected (c : NetworkClient) : Bool :=
  c.server_connection.isSome

/-- `AppNetworkClientMessage::listen_for_client_message`
(src/client.rs lines 178-194): `assert!` the kind is fresh (`none`
models the fatal assertion failure), then insert an empty queue. -/
def listen_for_client_message (kind : List Nat) (c : NetworkClient) :
    Option NetworkClient :=
  if (alistLookup c.recv_message_map kind).isSome then none
  else some { c with recv_message_map := c.recv_message_map ++ [(kind, [])] }

/-- The `register_client_message` system (src/client.rs lines 197-214):
drain the kind's queue, keep the payloads that deserialize, each tagged
with the sentinel server id; failures are skipped individually. -/
def register_client_message {α : Type} (des : List Nat → Option α)
    (kind : List Nat) (c : NetworkClient) :
    List (ConnectionId × α) × NetworkClient :=
  match alistLookup c.recv_message_map kind with
  | none => ([], c)
  | some q =>
      ((q.filterMap des).map fun m => (ConnectionId.server, m),
       { c with recv_message_map := alistSet c.recv_message_map kind [] })

/-- `send_client_network_events` (src/client.rs lines 277-285): drain
every queued lifecycle event into the host-visible event list. -/
def send_client_network_events (c : NetworkClient) :
    List ClientNetworkEvent × NetworkClient :=
  (c.network_events, { c with network_events := [] })

/-- A connection whose send task is still running (open channel). -/
def connOpen : Connection := { send_message := { queue := [], closed := false } }

/-- A connection whose send task has exited (closed channel). -/
def connClosed : Connection := { send_message := { queue := [], closed := true } }

/-- A listening server tracking one established connection. -/
def serverOneConn : NetworkServer :=
  { recv_message_map := []
    established_connections := [(⟨1⟩, connOpen)]
    new_connections := []
    disconnected_connections := []
    server_handle := some () }

/-- A listening server with the kind `"c"` (byte 0x63) registered and
one payload queued for it. -/
def serverChatRegistered : NetworkServer :=
  { recv_message_map := [([0x63], [(⟨1⟩, [0x31])])]
    established_connections := []
    new_connections := []
    disconnected_connections := []
    server_handle := some () }

/-- A client with an active connection whose lifecycle-event queue is
empty. -/
def clientConnected : NetworkClient :=
  { server_connection := some connOpen
    recv_message_map := []
    network_events := []
    connection_task := some () }

/-- A client whose connection exists but whose send task has exited. -/
def clientStaleConn : NetworkClient :=
  { server_connection := some connClosed
    recv_message_map := []
    network_events := []
    connection_task := some () }

/-- A listening server whose single connection's send task has exited. -/
def serverStaleConn : NetworkServer :=
  { recv_message_map := []
    established_connections := [(⟨1⟩, connClosed)]
    new_connections := []
    disconnected_connections := []
    server_handle := some () }

/-- A listening server with two connections: the first one's send task
has exited, the second is healthy. -/
def serverTwoConns : NetworkServer :=
  { recv_message_map := []
    established_connections := [(⟨1⟩, connClosed), (⟨2⟩, connOpen)]
    new_connections := []
    disconnected_connections := []
    server_handle := some () }

/-- A small concrete packet for witnesses. -/
def pkt0 : NetworkPacket := ⟨[0x63], [0x68]⟩

/-- A concrete application-level deserializer for witnesses: accepts
exactly the payload [0x31], producing 7. -/
def des0 (l : List Nat) : Option Nat :=
  if l = [0x31] then some 7 else none

/-- A server with kind `[0x63]` registered, holding three payloads of
which the middle one fails `des0`. -/
def sDrain : NetworkServer :=
  { recv_message_map := [([0x63], [(⟨1⟩, [0x31]), (⟨2⟩, [0x30]), (⟨3⟩, [0x31])])]
    established_connections := []
    new_connections := []
    disconnected_connections := []
    server_handle := some () }

/-- A client with kind `[0x63]` registered, holding two payloads of
which the second fails `des0`. -/
def cDrain : NetworkClient :=
  { server_connection := none
    recv_message_map := [([0x63], [[0x31], [0x30]])]
    network_events := []
    connection_task := none }

theorem u64ToLeBytes_length (n : Nat) : (u64ToLeBytes n).length = 8 := rfl

theorem u64FromLeBytes_u64ToLeBytes (n : Nat) (h : n < 2 ^ 64) :
    u64FromLeBytes (u64ToLeBytes n) = n := by
  simp only [u64ToLeBytes, u64FromLeBytes]
  omega

theorem hexVal_hexDigit (d : Nat) (h : d < 16) : hexVal (hexDigit d) = some d := by
  interval_cases d <;> decide

theorem parseJsonString_quote (r : List Nat) :
    parseJsonString (0x22 :: r) = some ([], r) := by
  rw [parseJsonString.eq_def]; norm_num

theorem parseJsonString_plain (b : Nat) (l : List Nat)
    (h22 : b ≠ 0x22) (h5C : b ≠ 0x5C) :
    parseJsonString (b :: l) = (parseJsonString l).map (fun p => (b :: p.1, p.2)) := by
  rw [parseJsonString.eq_def]
  simp [h22, h5C]

theorem parseJsonString_escQuote (l : List Nat) :
    parseJsonString (0x5C :: 0x22 :: l) =
      (parseJsonString l).map (fun p => (0x22 :: p.1, p.2)) := by
  rw [parseJsonString.eq_def]; norm_num

theorem parseJsonString_escBackslash (l : List Nat) :
    parseJsonString (0x5C :: 0x5C :: l) =
      (parseJsonString l).map (fun p => (0x5C :: p.1, p.2)) := by
  rw [parseJsonString.eq_def]; norm_num

theorem parseJsonString_escB (l : List Nat) :
    parseJsonString (0x5C :: 0x62 :: l) =
      (parseJsonString l).map (fun p => (0x08 :: p.1, p.2)) := by
  rw [parseJsonString.eq_def]; norm_num

theorem parseJsonString_escT (l : List Nat) :
    parseJsonString (0x5C :: 0x74 :: l) =
      (parseJsonString l).map (fun p => (0x09 :: p.1, p.2)) := by
  rw [parseJsonString.eq_def]; norm_num

theorem parseJsonString_escN (l : List Nat) :
    parseJsonString (0x5C :: 0x6E :: l) =
      (parseJsonString l).map (fun p => (0x0A :: p.1, p.2)) := by
  rw [parseJsonString.eq_def]; norm_num

theorem parseJsonString_escF (l : List Nat) :
    parseJsonString (0x5C :: 0x66 :: l) =
      (parseJsonString l).map (fun p => (0x0C :: p.1, p.2)) := by
  rw [parseJsonString.eq_def]; norm_num

theorem parseJsonString_escR (l : List Nat) :
    parseJsonString (0x5C :: 0x72 :: l) =
      (parseJsonString l).map (fun p => (0x0D :: p.1, p.2)) := by
  rw [parseJsonString.eq_def]; norm_num

theorem parseJsonString_escU (h1 h2 h3 h4 v1 v2 v3 v4 : Nat) (l : List Nat)
    (e1 : hexVal h1 = some v1) (e2 : hexVal h2 = some v2)
    (e3 : hexVal h3 = some v3) (e4 : hexVal h4 = some v4)
    (hv : ((v1 * 16 + v2) * 16 + v3) * 16 + v4 < 0x20) :
    parseJsonString (0x5C :: 0x75 :: h1 :: h2 :: h3 :: h4 :: l) =
      (parseJsonString l).map
        (fun p => ((((v1 * 16 + v2) * 16 + v3) * 16 + v4) :: p.1, p.2)) := by
  rw [parseJsonString.eq_def]
  norm_num
  rw [e1, e2, e3, e4]
  simp [hv]

theorem parseJsonString_escape (s r : List Nat) :
    parseJsonString (escapeBytes s ++ 0x22 :: r) = some (s, r) := by
  induction s with
  | nil => simp [escapeBytes, parseJsonString_quote]
  | cons b t ih =>
    have hcons : escapeBytes (b :: t) = escapeByte b ++ escapeBytes t := by
      simp [escapeBytes]
    rw [hcons, List.append_assoc]
    by_cases h22 : b = 0x22
    · subst h22
      simp [escapeByte, parseJsonString_escQuote, ih]
    · by_cases h5C : b = 0x5C
      · subst h5C
        simp [escapeByte, parseJsonString_escBackslash, ih]
      · by_cases h08 : b = 0x08
        · subst h08; simp [escapeByte, parseJsonString_escB, ih]
        · by_cases h09 : b = 0x09
          · subst h09; simp [escapeByte, parseJsonString_escT, ih]
          · by_cases h0A : b = 0x0A
            · subst h0A; simp [escapeByte, parseJsonString_escN, ih]
            · by_cases h0C : b = 0x0C
              · subst h0C; simp [escapeByte, parseJsonString_escF, ih]
              · by_cases h0D : b = 0x0D
                · subst h0D; simp [escapeByte, parseJsonString_escR, ih]
                · by_cases hctl : b < 0x20
                  · have hdiv : b / 16 < 16 := by omega
                    have hmod : b % 16 < 16 := by omega
                    have hesc : escapeByte b =
                        [0x5C, 0x75, 0x30, 0x30, hexDigit (b / 16), hexDigit (b % 16)] := by
                      rw [escapeByte]
                      simp [h22, h5C, h08, h09, h0A, h0C, h0D, hctl]
                    rw [hesc]
                    have h30 : hexVal 0x30 = some 0 := by decide
                    have hstep := parseJsonString_escU 0x30 0x30
                      (hexDigit (b / 16)) (hexDigit (b % 16)) 0 0 (b / 16) (b % 16)
                      (escapeBytes t ++ 0x22 :: r) h30 h30
                      (hexVal_hexDigit _ hdiv) (hexVal_hexDigit _ hmod) (by omega)
                    simp only [List.cons_append, List.nil_append] at hstep ⊢
                    rw [hstep, ih]
                    simp
                    omega
                  · have hesc : escapeByte b = [b] := by
                      rw [escapeByte]
                      simp [h22, h5C, h08, h09, h0A, h0C, h0D, hctl]
                    rw [hesc]
                    simp only [List.cons_append, List.nil_append]
                    rw [parseJsonString_plain b _ h22 h5C, ih]
                    rfl

theorem dropLit_append (lit r : List Nat) : dropLit lit (lit ++ r) = some r := by
  induction lit with
  | nil => rfl
  | cons l lt ih => simp [dropLit, ih]

theorem jsonDecodePacket_jsonEncodePacket (p : NetworkPacket) :
    jsonDecodePacket (jsonEncodePacket p) = some p := by
  have h1 := parseJsonString_escape p.kind
    ([0x2C, 0x22, 0x64, 0x61, 0x74, 0x61, 0x22, 0x3A, 0x22]
      ++ (escapeBytes p.data ++ [0x22, 0x7D]))
  have h2 := parseJsonString_escape p.data [0x7D]
  simp only [List.cons_append, List.nil_append] at h1 h2
  rw [jsonEncodePacket, jsonDecodePacket]
  simp only [List.append_assoc, List.cons_append, List.nil_append]
  norm_num [dropLit]
  rw [h1]
  norm_num [dropLit]
  rw [h2]
  simp

theorem take_len_append {α : Type} (l r : List α) : (l ++ r).take l.length = l := by
  simp

theorem drop_len_append {α : Type} (l r : List α) : (l ++ r).drop l.length = r := by
  simp

theorem recvLoop_nil (maxLen : Nat) (hbuf : 8 ≤ maxLen) :
    recvLoop maxLen [] = ([], .cleanEof) := by
  rw [recvLoop.eq_def]
  simp [Nat.not_lt.mpr hbuf]

theorem recvLoop_frame (maxLen : Nat) (p : NetworkPacket) (rest : List Nat)
    (hbuf : 8 ≤ maxLen) (hfit : (jsonEncodePacket p).length ≤ maxLen)
    (h64 : (jsonEncodePacket p).length < 2 ^ 64) :
    recvLoop maxLen (encodeFrame p ++ rest) =
      (p :: (recvLoop maxLen rest).1, (recvLoop maxLen rest).2) := by
  have hL8 : (u64ToLeBytes (jsonEncodePacket p).length).length = 8 :=
    u64ToLeBytes_length _
  have hsplit : encodeFrame p ++ rest =
      u64ToLeBytes (jsonEncodePacket p).length ++ (jsonEncodePacket p ++ rest) := by
    simp [encodeFrame, List.append_assoc]
  have hlen : (u64ToLeBytes (jsonEncodePacket p).length
      ++ (jsonEncodePacket p ++ rest)).length =
      8 + ((jsonEncodePacket p).length + rest.length) := by
    simp [hL8]
  have htake : (u64ToLeBytes (jsonEncodePacket p).length
      ++ (jsonEncodePacket p ++ rest)).take 8 =
      u64ToLeBytes (jsonEncodePacket p).length := by
    rw [← hL8]
    exact take_len_append _ _
  have hdrop : (u64ToLeBytes (jsonEncodePacket p).length
      ++ (jsonEncodePacket p ++ rest)).drop 8 = jsonEncodePacket p ++ rest := by
    rw [← hL8]
    exact drop_len_append _ _
  have htakeB : (jsonEncodePacket p ++ rest).take (jsonEncodePacket p).length =
      jsonEncodePacket p := take_len_append _ _
  have hdropB : (jsonEncodePacket p ++ rest).drop (jsonEncodePacket p).length =
      rest := drop_len_append _ _
  rw [hsplit, recvLoop.eq_def]
  rw [if_neg (Nat.not_lt.mpr hbuf)]
  rw [if_neg (by omega : ¬(u64ToLeBytes (jsonEncodePacket p).length
      ++ (jsonEncodePacket p ++ rest)).length = 0)]
  rw [dif_pos (by omega : 8 ≤ (u64ToLeBytes (jsonEncodePacket p).length
      ++ (jsonEncodePacket p ++ rest)).length)]
  simp only [htake, u64FromLeBytes_u64ToLeBytes _ h64, hdrop]
  rw [if_neg (Nat.not_lt.mpr hfit)]
  rw [if_neg (by simp : ¬(jsonEncodePacket p ++ rest).length <
      (jsonEncodePacket p).length)]
  simp only [htakeB, hdropB, jsonDecodePacket_jsonEncodePacket]

theorem recvLoop_exit_ne_panicked (maxLen : Nat) (hbuf : 8 ≤ maxLen) (s : List Nat) :
    (recvLoop maxLen s).2 ≠ RecvExit.panicked := by
  generalize hn : s.length = n
  induction n using Nat.strong_induction_on generalizing s with
  | _ n ih =>
    rw [recvLoop.eq_def]
    rw [if_neg (Nat.not_lt.mpr hbuf)]
    by_cases h0 : s.length = 0
    · simp [h0]
    · rw [if_neg h0]
      by_cases h8 : 8 ≤ s.length
      · rw [dif_pos h8]
        by_cases hover : u64FromLeBytes (s.take 8) > maxLen
        · simp [hover]
        · rw [if_neg hover]
          by_cases hshort : (s.drop 8).length < u64FromLeBytes (s.take 8)
          · simp only [List.length_drop] at hshort
            simp [hshort]
          · rw [if_neg hshort]
            cases hdec : jsonDecodePacket
                ((s.drop 8).take (u64FromLeBytes (s.take 8))) with
            | none => simp
            | some p =>
              simp only []
              exact ih ((s.drop 8).drop (u64FromLeBytes (s.take 8))).length
                (by simp only [List.length_drop]; omega) _ rfl
      · rw [dif_neg h8]
        simp

/-- C1: a received frame whose eight-byte little-endian declared length
exceeds `max_packet_length` makes `recv_loop` break out of the receive
loop at the size check, before the body read, whatever (and however
few) bytes follow the header; no packet from that frame is forwarded,
so the dispatch task adds nothing to any message-kind queue of the
registry. (Stated under the buffer precondition `8 ≤ max_packet_length`
that the implementation needs to reach the size check at all.) -/
theorem recvLoop_oversized_terminates_before_body (maxLen declared : Nat)
    (rest : List Nat) (cid : ConnectionId)
    (m : List (List Nat × List (ConnectionId × List Nat)))
    (hbuf : 8 ≤ maxLen) (hover : maxLen < declared) (h64 : declared < 2 ^ 64) :
    recvLoop maxLen (u64ToLeBytes declared ++ rest) = ([], .tooLarge declared) ∧
    dispatchPacketsServer cid m
      (recvLoop maxLen (u64ToLeBytes declared ++ rest)).1 = m := by
  have hL8 : (u64ToLeBytes declared).length = 8 := u64ToLeBytes_length _
  have htake : (u64ToLeBytes declared ++ rest).take 8 = u64ToLeBytes declared := by
    rw [← hL8]
    exact take_len_append _ _
  have hmain : recvLoop maxLen (u64ToLeBytes declared ++ rest) =
      ([], .tooLarge declared) := by
    rw [recvLoop.eq_def]
    rw [if_neg (Nat.not_lt.mpr hbuf)]
    rw [if_neg (by simp [hL8] : ¬(u64ToLeBytes declared ++ rest).length = 0)]
    rw [dif_pos (by simp [hL8] : 8 ≤ (u64ToLeBytes declared ++ rest).length)]
    simp only [htake, u64FromLeBytes_u64ToLeBytes _ h64]
    rw [if_pos hover]
  exact ⟨hmain, by rw [hmain]; rfl⟩

/-- C1 witness: `max_packet_length = 8`, declared length 9, no body
bytes available. -/
theorem recvLoop_oversized_terminates_before_body_witness :
    recvLoop 8 (u64ToLeBytes 9 ++ []) = ([], .tooLarge 9) ∧
    dispatchPacketsServer ⟨1⟩ [([0x63], [])]
      (recvLoop 8 (u64ToLeBytes 9 ++ [])).1 = [([0x63], [])] :=
  recvLoop_oversized_terminates_before_body 8 9 [] ⟨1⟩ [([0x63], [])]
    (by decide) (by decide) (by norm_num)

/-- C2: at the header step, a read returning zero bytes (the stream is
exhausted) ends the receive loop as a clean end of stream, and a read
returning one to seven bytes (the stream ends inside the header) ends
it as a malformed-header error; neither path emits a packet. -/
theorem recvLoop_header_eof_and_short_read (maxLen : Nat) (s : List Nat)
    (hbuf : 8 ≤ maxLen) :
    (s.length = 0 → recvLoop maxLen s = ([], .cleanEof)) ∧
    (1 ≤ s.length → s.length ≤ 7 →
      recvLoop maxLen s = ([], .malformedHeader s.length)) := by
  constructor
  · intro h0
    rw [recvLoop.eq_def]
    rw [if_neg (Nat.not_lt.mpr hbuf)]
    rw [if_pos h0]
  · intro h1 h7
    rw [recvLoop.eq_def]
    rw [if_neg (Nat.not_lt.mpr hbuf)]
    rw [if_neg (by omega : ¬s.length = 0)]
    rw [dif_neg (by omega : ¬8 ≤ s.length)]

/-- C2 witness: the empty stream and a three-byte stream, with
`max_packet_length = 10`. -/
theorem recvLoop_header_eof_and_short_read_witness :
    recvLoop 10 [] = ([], .cleanEof) ∧
    recvLoop 10 [1, 2, 3] = ([], .malformedHeader 3) := by
  refine ⟨(recvLoop_header_eof_and_short_read 10 [] (by decide)).1 (by decide), ?_⟩
  have h := (recvLoop_header_eof_and_short_read 10 [1, 2, 3] (by decide)).2
    (by decide) (by decide)
  simpa using h

/-- C3: the wire form `send_loop` writes for a packet — eight-byte
little-endian length prefix, then the serde_json body — decodes back to
exactly that packet through the `recv_loop` steps, and the stream then
ends cleanly, provided the body fits in `max_packet_length` (and the
buffer precondition `8 ≤ max_packet_length ≤ usize` bounds hold). -/
theorem packet_codec_roundtrip (maxLen : Nat) (p : NetworkPacket)
    (hbuf : 8 ≤ maxLen) (husize : maxLen < 2 ^ 64)
    (hfit : (jsonEncodePacket p).length ≤ maxLen) :
    recvLoop maxLen (sendLoop [p]) = ([p], .cleanEof) := by
  have hs : sendLoop [p] = encodeFrame p ++ [] := by
    simp [sendLoop]
  rw [hs, recvLoop_frame maxLen p [] hbuf hfit (by omega), recvLoop_nil maxLen hbuf]

/-- C3 witness: the packet with kind "c" (0x63) and data with a quote,
a backslash and a control byte, `max_packet_length = 64`. -/
theorem packet_codec_roundtrip_witness :
    recvLoop 64 (sendLoop [⟨[0x63], [0x22, 0x5C, 0x01, 0x68]⟩]) =
      ([⟨[0x63], [0x22, 0x5C, 0x01, 0x68]⟩], .cleanEof) :=
  packet_codec_roundtrip 64 ⟨[0x63], [0x22, 0x5C, 0x01, 0x68]⟩
    (by decide) (by norm_num) (by decide)

/-- C10: the receive loop is only panic-free under the unstated
precondition `8 ≤ max_packet_length`: with `max_packet_length < 8` the
very first header read slices `buffer[..8]` out of a shorter buffer and
panics — delivering nothing and not reaching any clean termination —
while with `8 ≤ max_packet_length` no input stream ever reaches the
panic. -/
theorem recvLoop_panics_below_min_buffer (maxLen : Nat) (s : List Nat) :
    (maxLen < 8 → recvLoop maxLen s = ([], .panicked)) ∧
    (8 ≤ maxLen → (recvLoop maxLen s).2 ≠ RecvExit.panicked) := by
  constructor
  · intro h
    rw [recvLoop.eq_def]
    rw [if_pos h]
  · intro h
    exact recvLoop_exit_ne_panicked maxLen h s

/-- C10 witness: `max_packet_length = 7` panics on a well-formed frame
stream, `max_packet_length = 8` does not panic on the same stream. -/
theorem recvLoop_panics_below_min_buffer_witness :
    recvLoop 7 (u64ToLeBytes 0) = ([], .panicked) ∧
    (recvLoop 8 (u64ToLeBytes 0)).2 ≠ RecvExit.panicked :=
  ⟨(recvLoop_panics_below_min_buffer 7 (u64ToLeBytes 0)).1 (by decide),
   (recvLoop_panics_below_min_buffer 8 (u64ToLeBytes 0)).2 (by decide)⟩

theorem alistLookup_cons {K V : Type} [DecidableEq K] (k1 : K) (v1 : V)
    (t : List (K × V)) (key : K) :
    alistLookup ((k1, v1) :: t) key =
      if k1 = key then some v1 else alistLookup t key := rfl

theorem alistSet_cons {K V : Type} [DecidableEq K] (k1 : K) (v1 : V)
    (t : List (K × V)) (k : K) (v : V) :
    alistSet ((k1, v1) :: t) k v =
      (if k1 = k then (k1, v) else (k1, v1)) :: alistSet t k v := by
  by_cases he : k1 = k
  · simp [alistSet, he]
  · simp [alistSet, he]

theorem alistLookup_alistSet_self {K V : Type} [DecidableEq K]
    (m : List (K × V)) (k : K) (v v0 : V) (h : alistLookup m k = some v0) :
    alistLookup (alistSet m k v) k = some v := by
  induction m with
  | nil => simp [alistLookup] at h
  | cons e t ih =>
    obtain ⟨k1, v1⟩ := e
    rw [alistSet_cons]
    by_cases he : k1 = k
    · rw [if_pos he, alistLookup_cons, if_pos he]
    · rw [if_neg he, alistLookup_cons, if_neg he]
      rw [alistLookup_cons, if_neg he] at h
      exact ih h

theorem alistLookup_alistSet_ne {K V : Type} [DecidableEq K]
    (m : List (K × V)) (k k2 : K) (v : V) (hne : k2 ≠ k) :
    alistLookup (alistSet m k v) k2 = alistLookup m k2 := by
  induction m with
  | nil => rfl
  | cons e t ih =>
    obtain ⟨k1, v1⟩ := e
    rw [alistSet_cons]
    by_cases he : k1 = k
    · have hne1 : ¬k1 = k2 := fun hh => hne (hh ▸ he)
      rw [if_pos he, alistLookup_cons, alistLookup_cons, if_neg hne1, if_neg hne1]
      exact ih
    · rw [if_neg he, alistLookup_cons, alistLookup_cons]
      by_cases hk12 : k1 = k2
      · rw [if_pos hk12, if_pos hk12]
      · rw [if_neg hk12, if_neg hk12]
        exact ih

theorem alistLookup_append_self {K V : Type} [DecidableEq K]
    (m : List (K × V)) (k : K) (v : V) (h : alistLookup m k = none) :
    alistLookup (m ++ [(k, v)]) k = some v := by
  induction m with
  | nil => simp [alistLookup]
  | cons e t ih =>
    obtain ⟨k1, v1⟩ := e
    rw [alistLookup_cons] at h
    rw [List.cons_append, alistLookup_cons]
    by_cases he : k1 = k
    · rw [if_pos he] at h
      exact absurd h (by simp)
    · rw [if_neg he] at h
      rw [if_neg he]
      exact ih h

theorem filterMap_length_of_all_isSome {α β : Type} (g : α → Option β)
    (q : List α) (h : ∀ e ∈ q, (g e).isSome = true) :
    (q.filterMap g).length = q.length := by
  induction q with
  | nil => rfl
  | cons e t ih =>
    have he : (g e).isSome = true := h e (by simp)
    obtain ⟨b, hb⟩ := Option.isSome_iff_exists.mp he
    simp [List.filterMap_cons, hb, ih fun x hx => h x (by simp [hx])]

/-- C4: counter-evidence. `NetworkServer::stop` on a listening server
with one tracked connection removes the connection but the
disconnected-connections poll then yields zero `Disconnected`
notifications, and `NetworkClient::disconnect` on a connected client
drops the connection but the lifecycle-event poll then yields zero
events: both functions build the `Sender::send` future and drop it
without awaiting it (`let _ = ...send(...)`), so nothing is ever
enqueued, where the claim promises exactly one notification per
removed connection. -/
theorem stop_and_disconnect_emit_no_lifecycle_events :
    (NetworkServer.stop serverOneConn).established_connections = [] ∧
    (handle_disconnections (NetworkServer.stop serverOneConn)).1 = [] ∧
    (NetworkClient.disconnect clientConnected).server_connection = none ∧
    (send_client_network_events (NetworkClient.disconnect clientConnected)).1 = [] :=
  ⟨rfl, rfl, rfl, rfl⟩

/-- C5 counterexample: a listening server has kind `[0x63]` registered
(with one queued payload); after `stop()` the kind is no longer
registered at all — the claim expected it to remain registered with an
empty queue. -/
theorem stop_unregisters_kinds_counterexample :
    alistLookup serverChatRegistered.recv_message_map [0x63] =
      some [(⟨1⟩, [0x31])] ∧
    alistLookup (NetworkServer.stop serverChatRegistered).recv_message_map [0x63] =
      none :=
  ⟨rfl, rfl⟩

/-- C5 amended: after `stop()` on a listening server the registry is
cleared entirely — `DashMap::clear` removes every registration rather
than emptying the per-kind queues — so a subsequently arriving packet
of a previously registered kind is dropped by the dispatch task (its
kind is no longer found), not accepted. -/
theorem stop_clears_registry_completely (s : NetworkServer)
    (h : s.server_handle = some ()) :
    (NetworkServer.stop s).recv_message_map = [] ∧
    ∀ cid p, dispatchPacketServer cid (NetworkServer.stop s).recv_message_map p =
      (NetworkServer.stop s).recv_message_map := by
  have h1 : (NetworkServer.stop s).recv_message_map = [] := by
    simp [NetworkServer.stop, h]
  exact ⟨h1, fun cid p => by rw [h1]; rfl⟩

/-- C5 amended witness: the registered-kind server of the
counterexample, with a packet of the formerly registered kind arriving
after the stop. -/
theorem stop_clears_registry_completely_witness :
    (NetworkServer.stop serverChatRegistered).recv_message_map = [] ∧
    dispatchPacketServer ⟨2⟩
      (NetworkServer.stop serverChatRegistered).recv_message_map ⟨[0x63], [0x32]⟩ =
      (NetworkServer.stop serverChatRegistered).recv_message_map :=
  ⟨(stop_clears_registry_completely serverChatRegistered rfl).1,
   (stop_clears_registry_completely serverChatRegistered rfl).2 ⟨2⟩ ⟨[0x63], [0x32]⟩⟩

/-- C6: draining a registered kind returns exactly the queued payloads
whose deserialization succeeds, in arrival order (`filter_map` over the
drained queue — failures are skipped individually and never abort or
reorder the rest), leaves that kind's queue empty, does not touch any
other kind, and returns the full queue when every payload
deserializes; on the client the same holds with every event tagged with
the sentinel server id. -/
theorem drain_returns_all_in_order_and_empties {α : Type}
    (des : List Nat → Option α) (kind : List Nat)
    (s : NetworkServer) (c : NetworkClient)
    (q : List (ConnectionId × List Nat)) (qc : List (List Nat))
    (hs : alistLookup s.recv_message_map kind = some q)
    (hc : alistLookup c.recv_message_map kind = some qc) :
    (register_server_message des kind s).1 =
      q.filterMap (fun e => (des e.2).map fun inner => (e.1, inner)) ∧
    alistLookup (register_server_message des kind s).2.recv_message_map kind =
      some [] ∧
    (∀ k2, k2 ≠ kind →
      alistLookup (register_server_message des kind s).2.recv_message_map k2 =
        alistLookup s.recv_message_map k2) ∧
    ((∀ e ∈ q, (des e.2).isSome = true) →
      (register_server_message des kind s).1.length = q.length) ∧
    (register_client_message des kind c).1 =
      (qc.filterMap des).map (fun m => (ConnectionId.server, m)) ∧
    alistLookup (register_client_message des kind c).2.recv_message_map kind =
      some [] := by
  refine ⟨?_, ?_, ?_, ?_, ?_, ?_⟩
  · simp [register_server_message, hs]
  · simp only [register_server_message, hs]
    exact alistLookup_alistSet_self _ _ _ _ hs
  · intro k2 hk2
    simp only [register_server_message, hs]
    exact alistLookup_alistSet_ne _ _ _ _ hk2
  · intro hall
    simp only [register_server_message, hs]
    exact filterMap_length_of_all_isSome _ q (by simpa using hall)
  · simp [register_client_message, hc]
  · simp only [register_client_message, hc]
    exact alistLookup_alistSet_self _ _ _ _ hc

/-- C6 witness: three server payloads (middle one fails `des0`) and two
client payloads (second fails `des0`), drained once. -/
theorem drain_returns_all_in_order_and_empties_witness :
    (register_server_message des0 [0x63] sDrain).1 = [(⟨1⟩, 7), (⟨3⟩, 7)] ∧
    alistLookup (register_server_message des0 [0x63] sDrain).2.recv_message_map
      [0x63] = some [] ∧
    (register_client_message des0 [0x63] cDrain).1 = [(ConnectionId.server, 7)] ∧
    alistLookup (register_client_message des0 [0x63] cDrain).2.recv_message_map
      [0x63] = some [] := by
  have h := drain_returns_all_in_order_and_empties des0 [0x63] sDrain cDrain
    [(⟨1⟩, [0x31]), (⟨2⟩, [0x30]), (⟨3⟩, [0x31])] [[0x31], [0x30]] rfl rfl
  refine ⟨?_, h.2.1, ?_, h.2.2.2.2.2⟩
  · rw [h.1]; rfl
  · rw [h.2.2.2.2.1]; rfl

/-- C7: registering a not-yet-registered message kind succeeds and
creates an empty queue for it, while registering an already registered
kind hits the `assert!` and fails fatally (`none`); the failure branch
is unreachable whenever the kind is fresh — on both server and
client. -/
theorem register_fresh_succeeds_duplicate_fatal (kind : List Nat)
    (s : NetworkServer) (c : NetworkClient) :
    (alistLookup s.recv_message_map kind = none →
      listen_for_server_message kind s =
        some { s with recv_message_map := s.recv_message_map ++ [(kind, [])] } ∧
      alistLookup (s.recv_message_map ++ [(kind, [])]) kind = some []) ∧
    ((alistLookup s.recv_message_map kind).isSome = true →
      listen_for_server_message kind s = none) ∧
    (alistLookup c.recv_message_map kind = none →
      listen_for_client_message kind c =
        some { c with recv_message_map := c.recv_message_map ++ [(kind, [])] } ∧
      alistLookup (c.recv_message_map ++ [(kind, [])]) kind = some []) ∧
    ((alistLookup c.recv_message_map kind).isSome = true →
      listen_for_client_message kind c = none) := by
  refine ⟨fun h => ⟨?_, alistLookup_append_self _ _ _ h⟩, fun h => ?_,
    fun h => ⟨?_, alistLookup_append_self _ _ _ h⟩, fun h => ?_⟩
  · simp [listen_for_server_message, h]
  · simp [listen_for_server_message, h]
  · simp [listen_for_client_message, h]
  · simp [listen_for_client_message, h]

/-- C7 witness: registering kind `[0x63]` on the empty registries
succeeds with an empty queue; registering it again on the resulting
registries is fatal. -/
theorem register_fresh_succeeds_duplicate_fatal_witness :
    (listen_for_server_message [0x63] serverOneConn =
      some { serverOneConn with recv_message_map := [([0x63], [])] } ∧
     alistLookup ([] ++ [([0x63], ([] : List (ConnectionId × List Nat)))]) [0x63] =
      some []) ∧
    listen_for_server_message [0x63] sDrain = none ∧
    listen_for_client_message [0x63] cDrain = none := by
  refine ⟨?_, ?_, ?_⟩
  · exact (register_fresh_succeeds_duplicate_fatal [0x63] serverOneConn cDrain).1 rfl
  · exact (register_fresh_succeeds_duplicate_fatal [0x63] sDrain cDrain).2.1 rfl
  · exact (register_fresh_succeeds_duplicate_fatal [0x63] serverOneConn cDrain).2.2.2 rfl

/-- C8 counterexample: a client whose connection exists but whose send
task has exited gets an error (`NotConnected`) from `send_message`,
where the claim says a send with an active connection succeeds (and its
only client error case is "no active connection"). -/
theorem client_send_fails_despite_connection_counterexample :
    clientStaleConn.server_connection.isSome = true ∧
    NetworkClient.send_message clientStaleConn pkt0 =
      .error .NotConnected :=
  ⟨rfl, rfl⟩

/-- C8 amended: the client's send returns `NotConnected` both when no
connection exists and when the connection's outgoing channel no longer
accepts packets (send task exited), succeeding otherwise; the server's
send-to returns `ConnectionNotFound` for an unknown id, `ChannelClosed`
when the target's channel no longer accepts packets, and succeeds
otherwise. -/
theorem send_error_cases (c : NetworkClient) (s : NetworkServer)
    (cid : ConnectionId) (p : NetworkPacket) :
    (c.server_connection = none →
      NetworkClient.send_message c p = .error .NotConnected) ∧
    (∀ conn, c.server_connection = some conn →
      conn.send_message.closed = true →
      NetworkClient.send_message c p = .error .NotConnected) ∧
    (∀ conn, c.server_connection = some conn →
      conn.send_message.closed = false →
      ∃ c2, NetworkClient.send_message c p = .ok c2) ∧
    (alistLookup s.established_connections cid = none →
      NetworkServer.send_message s cid p = .error (.ConnectionNotFound cid)) ∧
    (∀ conn, alistLookup s.established_connections cid = some conn →
      conn.send_message.closed = true →
      NetworkServer.send_message s cid p = .error (.ChannelClosed cid)) ∧
    (∀ conn, alistLookup s.established_connections cid = some conn →
      conn.send_message.closed = false →
      ∃ s2, NetworkServer.send_message s cid p = .ok s2) := by
  refine ⟨fun h => ?_, fun conn h hcl => ?_, fun conn h hop => ?_,
    fun h => ?_, fun conn h hcl => ?_, fun conn h hop => ?_⟩
  · simp [NetworkClient.send_message, h]
  · simp [NetworkClient.send_message, h, Channel.trySend, hcl]
  · refine ⟨{ c with server_connection := some { send_message :=
      { queue := conn.send_message.queue ++ [p], closed := false } } }, ?_⟩
    simp [NetworkClient.send_message, h, Channel.trySend, hop]
  · simp [NetworkServer.send_message, h]
  · simp [NetworkServer.send_message, h, Channel.trySend, hcl]
  · refine ⟨{ s with established_connections := alistSet s.established_connections cid ({ send_message := { queue := conn.send_message.queue ++ [p], closed := false } }) }, ?_⟩
    simp [NetworkServer.send_message, h, Channel.trySend, hop]

/-- C8 amended witness: every branch exercised on concrete states — a
disconnected client, the stale-channel client, a healthy client, an
unknown server id, a stale server connection, and a healthy server
connection. -/
theorem send_error_cases_witness :
    NetworkClient.send_message cDrain pkt0 = .error .NotConnected ∧
    NetworkClient.send_message clientStaleConn pkt0 = .error .NotConnected ∧
    (∃ c2, NetworkClient.send_message clientConnected pkt0 = .ok c2) ∧
    NetworkServer.send_message serverOneConn ⟨9⟩ pkt0 =
      .error (.ConnectionNotFound ⟨9⟩) ∧
    NetworkServer.send_message serverStaleConn ⟨1⟩ pkt0 =
      .error (.ChannelClosed ⟨1⟩) ∧
    ∃ s2, NetworkServer.send_message serverOneConn ⟨1⟩ pkt0 = .ok s2 := by
  refine ⟨?_, ?_, ?_, ?_, ?_, ?_⟩
  · exact (send_error_cases cDrain serverOneConn ⟨9⟩ pkt0).1 rfl
  · exact (send_error_cases clientStaleConn serverOneConn ⟨9⟩ pkt0).2.1
      connClosed rfl rfl
  · exact (send_error_cases clientConnected serverOneConn ⟨9⟩ pkt0).2.2.1
      connOpen rfl rfl
  · exact (send_error_cases cDrain serverOneConn ⟨9⟩ pkt0).2.2.2.1 (by decide)
  · exact (send_error_cases cDrain serverStaleConn ⟨1⟩ pkt0).2.2.2.2.1
      connClosed (by decide) rfl
  · exact (send_error_cases cDrain serverOneConn ⟨1⟩ pkt0).2.2.2.2.2
      connOpen (by decide) rfl

/-- C9: `broadcast` maps every currently-registered connection through
one `try_send` attempt: a connection with an open channel receives
exactly one enqueued copy of the packet, a connection whose send task
has exited is left unchanged (the failure is only logged) and does not
prevent any other connection from receiving its copy; `broadcast`
returns no error to its caller (it is total, returning only the updated
state, as the source returns unit). -/
theorem broadcast_enqueues_to_every_open_connection (s : NetworkServer)
    (p : NetworkPacket) :
    (NetworkServer.broadcast s p).established_connections =
      s.established_connections.map (broadcastStep p) ∧
    (∀ e : ConnectionId × Connection, e.2.send_message.closed = false →
      broadcastStep p e =
        (e.1, { send_message :=
          { queue := e.2.send_message.queue ++ [p], closed := false } })) ∧
    (∀ e : ConnectionId × Connection, e.2.send_message.closed = true →
      broadcastStep p e = e) := by
  refine ⟨rfl, fun e h => ?_, fun e h => ?_⟩
  · simp [broadcastStep, Channel.trySend, h]
  · simp [broadcastStep, Channel.trySend, h]

/-- C9 witness: two connections, the first with an exited send task;
after a broadcast the second still receives its copy and the first is
unchanged. -/
theorem broadcast_enqueues_to_every_open_connection_witness :
    (NetworkServer.broadcast serverTwoConns pkt0).established_connections =
      [(⟨1⟩, connClosed),
       (⟨2⟩, { send_message := { queue := [pkt0], closed := false } })] := by
  have h := broadcast_enqueues_to_every_open_connection serverTwoConns pkt0
  rw [h.1]
  show List.map (broadcastStep pkt0) [(⟨1⟩, connClosed), (⟨2⟩, connOpen)] = _
  rw [List.map_cons, List.map_cons, List.map_nil,
    h.2.2 (⟨1⟩, connClosed) rfl, h.2.1 (⟨2⟩, connOpen) rfl]
  rfl

end Eventwork
